import Mathlib

/-!
Verification of `randomized_flyover_generator.py` against its design
specification.  The script's numeric core is embedded shallowly over the
real numbers: `math.radians`, `math.atan2`, the `haversine` distance, the
radius-mode and polygon-mode point samplers of `generate_random_kml`, the
per-segment duration computation, and `parse_polygon_from_kml`.
Randomness is modelled by explicit streams of draws, and the external
point-in-polygon test (`shapely`'s `polygon.contains`) by an abstract
boolean predicate.
-/

/-- Embedding of Python's `math.radians`: degree-to-radian conversion. -/
noncomputable def radians (x : ℝ) : ℝ := x * (Real.pi / 180)

/-- Embedding of Python's `math.atan2 y x`: the angle of the point `(x, y)`,
with the usual quadrant corrections and `atan2 0 0 = 0`. -/
noncomputable def atan2 (y x : ℝ) : ℝ :=
  if 0 < x then Real.arctan (y / x)
  else if x < 0 ∧ 0 ≤ y then Real.arctan (y / x) + Real.pi
  else if x < 0 ∧ y < 0 then Real.arctan (y / x) - Real.pi
  else if x = 0 ∧ 0 < y then Real.pi / 2
  else if x = 0 ∧ y < 0 then -(Real.pi / 2)
  else 0

/-- The intermediate value `a` of `haversine` (source line 15):
`sin(Δφ/2)² + cos(φ₁)·cos(φ₂)·sin(Δλ/2)²`. -/
noncomputable def haversineA (lat1 lon1 lat2 lon2 : ℝ) : ℝ :=
  Real.sin (radians (lat2 - lat1) / 2) ^ 2 +
    Real.cos (radians lat1) * Real.cos (radians lat2) *
      Real.sin (radians (lon2 - lon1) / 2) ^ 2

/-- Embedding of `haversine` (source lines 9-17): great-circle distance in
km on a sphere of radius 6371, via `c = 2·atan2(√a, √(1-a))` and `R·c`. -/
noncomputable def haversine (lat1 lon1 lat2 lon2 : ℝ) : ℝ :=
  6371.0 * (2 * atan2 (Real.sqrt (haversineA lat1 lon1 lat2 lon2))
    (Real.sqrt (1 - haversineA lat1 lon1 lat2 lon2)))

/-- One radius-mode point (source lines 42-44): given the two draws
`u, v` of `random.uniform(-radius, radius)`, the sampled point is
`(lat_center + u/111, lon_center + v/(111·|cos(radians lat_center)|))`. -/
noncomputable def radiusPoint (lat_center lon_center u v : ℝ) : ℝ × ℝ :=
  (lat_center + u / 111,
   lon_center + v / (111 * |Real.cos (radians lat_center)|))

/-- The radius-mode point list (source lines 40-44): `points_count`
iterations (Python's `range` yields none when the count is negative),
iteration `i` consuming the draw pair `draws i`. -/
noncomputable def radiusPoints (lat_center lon_center : ℝ) (points_count : ℤ)
    (draws : ℕ → ℝ × ℝ) : List (ℝ × ℝ) :=
  (List.range points_count.toNat).map fun i =>
    radiusPoint lat_center lon_center (draws i).1 (draws i).2

/-- The polygon-mode rejection-sampling loop (source lines 46-51) after `k`
iterations: while fewer than `points_count` points are collected, iteration
`k` draws the bounding-box point `draw k` as `(x, y)`; if the abstract
point-in-polygon test `contains` (shapely's `polygon.contains`) accepts it,
`(y, x)` is appended. -/
def polygonSampleSteps (contains : ℝ × ℝ → Bool) (draw : ℕ → ℝ × ℝ)
    (points_count : ℤ) : ℕ → List (ℝ × ℝ)
  | 0 => []
  | k + 1 =>
    if ((polygonSampleSteps contains draw points_count k).length : ℤ) < points_count then
      if contains (draw k) then
        polygonSampleSteps contains draw points_count k ++ [((draw k).2, (draw k).1)]
      else polygonSampleSteps contains draw points_count k
    else polygonSampleSteps contains draw points_count k

/-- The duration of FlyTo element `i` (source lines 57-62): `5` for the
first element, otherwise the haversine distance from point `i-1` to point
`i` divided by the speed (km/h) and converted to seconds. -/
noncomputable def flyToDuration (points : List (ℝ × ℝ)) (speed : ℝ) (i : ℕ) : ℝ :=
  if i = 0 then 5
  else haversine (points.getD (i - 1) (0, 0)).1 (points.getD (i - 1) (0, 0)).2
      (points.getD i (0, 0)).1 (points.getD i (0, 0)).2 / speed * 3600

/-- The FlyTo sequence of `generate_random_kml` (source lines 54-78): one
`(latitude, longitude, duration)` triple per generated point, in order. -/
noncomputable def flyTos (points : List (ℝ × ℝ)) (speed : ℝ) : List (ℝ × ℝ × ℝ) :=
  (List.range points.length).map fun i =>
    ((points.getD i (0, 0)).1, (points.getD i (0, 0)).2, flyToDuration points speed i)

/-- A polygon source file as seen by `parse_polygon_from_kml`: the path may
not exist, the file may fail XML parsing, or it parses into a list of
Placemark elements, each optionally holding a Polygon whose coordinate
tuples are already split into numeric components (each inner list is one
comma-separated tuple of the `coordinates` text). -/
inductive KmlSource where
  | absent : KmlSource
  | malformedXml : KmlSource
  | wellFormed (placemarks : List (Option (List (List ℝ)))) : KmlSource

/-- The Placemark loop of `parse_polygon_from_kml` (source lines 94-99):
the first Placemark holding a Polygon yields that polygon, keeping only the
first two components of each coordinate tuple, as in
`coord.split(",")[:2]`; all later Placemark elements are never visited. -/
def placemarkLoop : List (Option (List (List ℝ))) → Option (List (List ℝ))
  | [] => none
  | none :: rest => placemarkLoop rest
  | some coords :: _ => some (coords.map fun t => t.take 2)

/-- Embedding of `parse_polygon_from_kml` (source lines 85-101).
A missing path is reported and `None` returned (source lines 86-88); a file
that is not well-formed XML makes `ET.parse` raise `ParseError`, modelled
as `.error ()` since nothing in the script catches it; a parsed tree is
scanned by the Placemark loop, with a no-polygon report yielding `None`
(source lines 100-101). -/
def parse_polygon_from_kml : KmlSource → Except Unit (Option (List (List ℝ)))
  | KmlSource.absent => Except.ok none
  | KmlSource.malformedXml => Except.error ()
  | KmlSource.wellFormed pms => Except.ok (placemarkLoop pms)

/-- Outcome of the polygon branch of `main` (source lines 147-161). -/
inductive PolygonModeOutcome where
  | wrote (flytos : List (ℝ × ℝ × ℝ)) : PolygonModeOutcome
  | abortedWithMessage : PolygonModeOutcome
  | uncaughtException : PolygonModeOutcome

/-- The polygon branch of `main` (source lines 147-161): parse the polygon
file; when the result is `None` an error was already printed and no file is
written; on a polygon the KML is generated and written. The surrounding
`try` catches only `ValueError`, so the `ParseError` raised on a malformed
file propagates out of `main`. Sampling randomness and the point-in-polygon
test are abstracted as in `polygonSampleSteps`, `k` being the number of
loop iterations the sampler performs. -/
noncomputable def mainPolygonBranch (src : KmlSource)
    (contains : List (List ℝ) → ℝ × ℝ → Bool) (draw : ℕ → ℝ × ℝ)
    (points_count : ℤ) (speed : ℝ) (k : ℕ) : PolygonModeOutcome :=
  match parse_polygon_from_kml src with
  | Except.error _ => PolygonModeOutcome.uncaughtException
  | Except.ok none => PolygonModeOutcome.abortedWithMessage
  | Except.ok (some poly) =>
      PolygonModeOutcome.wrote
        (flyTos (polygonSampleSteps (contains poly) draw points_count k) speed)

/-- A concrete two-point sequence used to instantiate the duration
theorems. -/
def examplePoints : List (ℝ × ℝ) := [(0, 0), (3, 4)]

lemma haversineA_self (lat lon : ℝ) : haversineA lat lon lat lon = 0 := by
  simp [haversineA, radians]

lemma atan2_zero_one : atan2 0 1 = 0 := by
  simp [atan2]

lemma haversineA_symm (lat1 lon1 lat2 lon2 : ℝ) :
    haversineA lat1 lon1 lat2 lon2 = haversineA lat2 lon2 lat1 lon1 := by
  have key : ∀ x y : ℝ,
      Real.sin (radians (x - y) / 2) ^ 2 = Real.sin (radians (y - x) / 2) ^ 2 := by
    intro x y
    have h : radians (x - y) / 2 = -(radians (y - x) / 2) := by
      simp only [radians]; ring
    rw [h, Real.sin_neg]; ring
  simp only [haversineA]
  rw [key lat2 lat1, key lon2 lon1]
  ring

lemma atan2_nonneg {y x : ℝ} (hy : 0 ≤ y) : 0 ≤ atan2 y x := by
  unfold atan2
  split_ifs with h1 h2 h3 h4 h5
  · have hm : Real.arctan 0 ≤ Real.arctan (y / x) :=
      Real.arctan_strictMono.monotone (div_nonneg hy h1.le)
    simpa [Real.arctan_zero] using hm
  · have ha := Real.neg_pi_div_two_lt_arctan (y / x)
    have hpi := Real.pi_pos
    linarith
  · exact absurd h3.2 (not_lt.mpr hy)
  · positivity
  · exact absurd h5.2 (not_lt.mpr hy)
  · exact le_refl 0

lemma haversine_nonneg (lat1 lon1 lat2 lon2 : ℝ) :
    0 ≤ haversine lat1 lon1 lat2 lon2 := by
  have h := atan2_nonneg (x := Real.sqrt (1 - haversineA lat1 lon1 lat2 lon2))
    (Real.sqrt_nonneg (haversineA lat1 lon1 lat2 lon2))
  unfold haversine
  nlinarith

lemma flyTos_length (points : List (ℝ × ℝ)) (speed : ℝ) :
    (flyTos points speed).length = points.length := by
  simp [flyTos]

lemma flyTos_getD (points : List (ℝ × ℝ)) (speed : ℝ) (i : ℕ)
    (h : i < points.length) :
    (flyTos points speed).getD i (0, 0, 0) =
      ((points.getD i (0, 0)).1, (points.getD i (0, 0)).2,
        flyToDuration points speed i) := by
  unfold flyTos
  rw [List.getD_eq_getElem?_getD, List.getElem?_map, List.getElem?_range h]
  rfl

/-- Claim C4: for every non-empty generated point sequence, the first tour
segment's duration is the fixed constant 5 seconds, regardless of the
points or the speed. -/
theorem first_flyto_duration_five (points : List (ℝ × ℝ)) (speed : ℝ)
    (h : points ≠ []) :
    ((flyTos points speed).getD 0 (0, 0, 0)).2.2 = 5 := by
  have hlen : 0 < points.length := List.length_pos.mpr h
  rw [flyTos_getD points speed 0 hlen]
  simp [flyToDuration]

/-- Witness for C4 at a concrete point list and speed. -/
theorem first_flyto_duration_five_witness :
    examplePoints ≠ [] ∧
      ((flyTos examplePoints 100).getD 0 (0, 0, 0)).2.2 = 5 :=
  ⟨by simp [examplePoints],
    first_flyto_duration_five examplePoints 100 (by simp [examplePoints])⟩

/-- Claim C3: for every generated point sequence and every index `i ≥ 1`,
the duration of tour segment `i` equals the haversine distance between
point `i-1` and point `i`, divided by the speed and multiplied by 3600. -/
theorem flyto_duration_haversine (points : List (ℝ × ℝ)) (speed : ℝ) (i : ℕ)
    (h1 : 1 ≤ i) (h2 : i < points.length) :
    ((flyTos points speed).getD i (0, 0, 0)).2.2 =
      haversine (points.getD (i - 1) (0, 0)).1 (points.getD (i - 1) (0, 0)).2
        (points.getD i (0, 0)).1 (points.getD i (0, 0)).2 / speed * 3600 := by
  rw [flyTos_getD points speed i h2]
  have hne : i ≠ 0 := by omega
  simp [flyToDuration, hne]

/-- Witness for C3 at a concrete point list, speed 100 and index 1. -/
theorem flyto_duration_haversine_witness :
    1 ≤ 1 ∧ 1 < examplePoints.length ∧
      ((flyTos examplePoints 100).getD 1 (0, 0, 0)).2.2 =
        haversine (examplePoints.getD 0 (0, 0)).1 (examplePoints.getD 0 (0, 0)).2
          (examplePoints.getD 1 (0, 0)).1 (examplePoints.getD 1 (0, 0)).2
          / 100 * 3600 :=
  ⟨le_refl 1, by simp [examplePoints],
    flyto_duration_haversine examplePoints 100 1 (le_refl 1)
      (by simp [examplePoints])⟩

/-- Claim C6: every segment duration after the first is non-negative, and
durations scale inversely with speed: for the same point pair, the duration
at speed `s` equals `t / s` times the duration at speed `t`. -/
theorem flyto_duration_nonneg_and_speed_scaling (points : List (ℝ × ℝ))
    (i : ℕ) (s t : ℝ) (h1 : 1 ≤ i) (h2 : i < points.length)
    (hs : 0 < s) (ht : 0 < t) :
    0 ≤ ((flyTos points s).getD i (0, 0, 0)).2.2 ∧
      ((flyTos points s).getD i (0, 0, 0)).2.2 =
        (t / s) * ((flyTos points t).getD i (0, 0, 0)).2.2 := by
  have hne : i ≠ 0 := by omega
  rw [flyTos_getD points s i h2, flyTos_getD points t i h2]
  simp only [flyToDuration, if_neg hne]
  constructor
  · have hh := haversine_nonneg (points.getD (i - 1) (0, 0)).1
      (points.getD (i - 1) (0, 0)).2 (points.getD i (0, 0)).1
      (points.getD i (0, 0)).2
    have := div_nonneg hh hs.le
    nlinarith
  · field_simp
    ring

/-- Witness for C6 at a concrete point list, speeds 100 and 200, index 1. -/
theorem flyto_duration_nonneg_and_speed_scaling_witness :
    1 ≤ 1 ∧ 1 < examplePoints.length ∧ (0 : ℝ) < 100 ∧ (0 : ℝ) < 200 ∧
      (0 ≤ ((flyTos examplePoints 100).getD 1 (0, 0, 0)).2.2 ∧
        ((flyTos examplePoints 100).getD 1 (0, 0, 0)).2.2 =
          ((200 : ℝ) / 100) * ((flyTos examplePoints 200).getD 1 (0, 0, 0)).2.2) :=
  ⟨le_refl 1, by simp [examplePoints], by norm_num, by norm_num,
    flyto_duration_nonneg_and_speed_scaling examplePoints 1 100 200 (le_refl 1)
      (by simp [examplePoints]) (by norm_num) (by norm_num)⟩

lemma radiusPoint_offset (lat_center lon_center u v radius : ℝ)
    (hu : |u| ≤ radius) (hv : |v| ≤ radius) :
    |((radiusPoint lat_center lon_center u v).1 - lat_center) * 111| ≤ radius ∧
      |((radiusPoint lat_center lon_center u v).2 - lon_center) *
        (111 * |Real.cos (radians lat_center)|)| ≤ radius := by
  constructor
  · have h : ((radiusPoint lat_center lon_center u v).1 - lat_center) * 111 = u := by
      simp only [radiusPoint]
      field_simp
      ring
    rw [h]; exact hu
  · by_cases hc : |Real.cos (radians lat_center)| = 0
    · have h : ((radiusPoint lat_center lon_center u v).2 - lon_center) *
          (111 * |Real.cos (radians lat_center)|) = 0 := by
        simp [radiusPoint, hc]
      rw [h]
      simpa using le_trans (abs_nonneg u) hu
    · have hne : 111 * |Real.cos (radians lat_center)| ≠ 0 :=
        mul_ne_zero (by norm_num) hc
      have h : ((radiusPoint lat_center lon_center u v).2 - lon_center) *
          (111 * |Real.cos (radians lat_center)|) = v := by
        simp only [radiusPoint, add_sub_cancel_left]
        exact div_mul_cancel₀ v hne
      rw [h]; exact hv

/-- Claim C2: in radius mode, every generated point has its center offset
within the configured radius under the degree approximation: the latitude
offset times 111, and the longitude offset times `111·|cos(radians lat)|`,
each have absolute value at most `radius`, given that the uniform draws lie
in `[-radius, radius]`. -/
theorem radius_mode_offset_within_radius (lat_center lon_center radius : ℝ)
    (n : ℤ) (draws : ℕ → ℝ × ℝ)
    (hdraws : ∀ i, |(draws i).1| ≤ radius ∧ |(draws i).2| ≤ radius)
    (p : ℝ × ℝ) (hp : p ∈ radiusPoints lat_center lon_center n draws) :
    |(p.1 - lat_center) * 111| ≤ radius ∧
      |(p.2 - lon_center) * (111 * |Real.cos (radians lat_center)|)| ≤ radius := by
  simp only [radiusPoints, List.mem_map, List.mem_range] at hp
  obtain ⟨i, _, rfl⟩ := hp
  exact radiusPoint_offset lat_center lon_center (draws i).1 (draws i).2 radius
    (hdraws i).1 (hdraws i).2

/-- Witness for C2: center `(0,0)`, radius `0`, all draws `(0,0)`. -/
theorem radius_mode_offset_within_radius_witness :
    |((radiusPoint 0 0 0 0).1 - 0) * 111| ≤ 0 ∧
      |((radiusPoint 0 0 0 0).2 - 0) * (111 * |Real.cos (radians 0)|)| ≤ 0 :=
  radius_mode_offset_within_radius 0 0 0 1 (fun _ => (0, 0))
    (fun _ => by constructor <;> simp) (radiusPoint 0 0 0 0)
    (by simp [radiusPoints])

lemma radiusPoints_length (lat_center lon_center : ℝ) (n : ℤ)
    (draws : ℕ → ℝ × ℝ) :
    (radiusPoints lat_center lon_center n draws).length = n.toNat := by
  simp [radiusPoints]

/-- Claim C9: radius mode produces exactly `points_count` FlyTo triples
when the count is non-negative, and an empty tour when the count is at most
zero (Python's `range` of a negative count is empty; no error). -/
theorem radius_mode_flyto_count (lat_center lon_center speed : ℝ) (n : ℤ)
    (draws : ℕ → ℝ × ℝ) :
    (0 ≤ n →
      ((flyTos (radiusPoints lat_center lon_center n draws) speed).length : ℤ) = n) ∧
    (n ≤ 0 → flyTos (radiusPoints lat_center lon_center n draws) speed = []) := by
  constructor
  · intro hn
    rw [flyTos_length, radiusPoints_length]
    omega
  · intro hn
    have h0 : n.toNat = 0 := Int.toNat_of_nonpos hn
    have hempty : radiusPoints lat_center lon_center n draws = [] := by
      simp [radiusPoints, h0]
    rw [hempty]
    simp [flyTos]

/-- Witness for C9 at counts `2` and `-1`. -/
theorem radius_mode_flyto_count_witness :
    ((flyTos (radiusPoints 0 0 2 fun _ => (0, 0)) 100).length : ℤ) = 2 ∧
      flyTos (radiusPoints 0 0 (-1) fun _ => (0, 0)) 100 = [] :=
  ⟨(radius_mode_flyto_count 0 0 100 2 _).1 (by norm_num),
    (radius_mode_flyto_count 0 0 100 (-1) _).2 (by norm_num)⟩

/-- Claim C1: in polygon mode, every point appended by the rejection
sampler lies inside the polygon: each generated `(latitude, longitude)`
pair passes the point-in-polygon test on the `(longitude, latitude)`
point, for every abstract `contains` predicate and draw stream. -/
theorem polygon_mode_points_inside (contains : ℝ × ℝ → Bool)
    (draw : ℕ → ℝ × ℝ) (points_count : ℤ) (k : ℕ) (p : ℝ × ℝ)
    (hp : p ∈ polygonSampleSteps contains draw points_count k) :
    contains (p.2, p.1) = true := by
  induction k with
  | zero => simp [polygonSampleSteps] at hp
  | succ k ih =>
    rw [polygonSampleSteps] at hp
    split_ifs at hp with hlen hcont
    · rcases List.mem_append.mp hp with h | h
      · exact ih h
      · have hp2 : p = ((draw k).2, (draw k).1) := by simpa using h
        subst hp2
        simpa using hcont
    · exact ih hp
    · exact ih hp

/-- Witness for C1: an always-true test, one draw `(1, 2)`, one point. -/
theorem polygon_mode_points_inside_witness :
    (fun _ => true : ℝ × ℝ → Bool) (((2 : ℝ), (1 : ℝ)).2, ((2 : ℝ), (1 : ℝ)).1) = true :=
  polygon_mode_points_inside (fun _ => true) (fun _ => (1, 2)) 1 1 (2, 1)
    (by simp [polygonSampleSteps])

lemma polygonSampleSteps_all_false (contains : ℝ × ℝ → Bool)
    (draw : ℕ → ℝ × ℝ) (points_count : ℤ) (k : ℕ)
    (hc : ∀ q, contains q = false) :
    polygonSampleSteps contains draw points_count k = [] := by
  induction k with
  | zero => rfl
  | succ k ih =>
    rw [polygonSampleSteps, ih]
    simp [hc]

/-- Claim C8: the polygon-mode rejection loop has no timeout: if the
point-in-polygon test never accepts (a degenerate polygon), then after any
number of iterations the collected-point count is still below the request,
so the `while` guard never becomes false and the sampler never
terminates. -/
theorem degenerate_polygon_loop_never_reaches_count (contains : ℝ × ℝ → Bool)
    (draw : ℕ → ℝ × ℝ) (points_count : ℤ) (k : ℕ)
    (hc : ∀ q, contains q = false) (hcount : 1 ≤ points_count) :
    ((polygonSampleSteps contains draw points_count k).length : ℤ) < points_count := by
  rw [polygonSampleSteps_all_false contains draw points_count k hc]
  simpa using hcount

/-- Witness for C8: an always-false test, count `1`, five iterations. -/
theorem degenerate_polygon_loop_never_reaches_count_witness :
    ((polygonSampleSteps (fun _ => false) (fun _ => ((0 : ℝ), (0 : ℝ))) 1 5).length : ℤ) < 1 :=
  degenerate_polygon_loop_never_reaches_count (fun _ => false)
    (fun _ => (0, 0)) 1 5 (fun _ => rfl) (by norm_num)

/-- Claim C5: the haversine function is zero on identical arguments and is
symmetric: `haversine lat lon lat lon = 0` for every point, and
`haversine A B = haversine B A` for every pair of points. -/
theorem haversine_self_zero_and_symm :
    (∀ lat lon : ℝ, haversine lat lon lat lon = 0) ∧
    (∀ lat1 lon1 lat2 lon2 : ℝ,
      haversine lat1 lon1 lat2 lon2 = haversine lat2 lon2 lat1 lon1) := by
  constructor
  · intro lat lon
    simp [haversine, haversineA_self, atan2_zero_one]
  · intro lat1 lon1 lat2 lon2
    simp only [haversine, haversineA_symm lat1 lon1 lat2 lon2]


/-- Counterexample to claim C7 as stated: a polygon source file that exists
but is not well-formed XML does not end in a reported abort; the
`ParseError` of `ET.parse` propagates as an uncaught exception, because
`main` catches only `ValueError`. -/
theorem malformed_polygon_file_uncaught :
    mainPolygonBranch KmlSource.malformedXml (fun _ _ => true) (fun _ => (0, 0))
        1 100 0 = PolygonModeOutcome.uncaughtException ∧
      mainPolygonBranch KmlSource.malformedXml (fun _ _ => true) (fun _ => (0, 0))
        1 100 0 ≠ PolygonModeOutcome.abortedWithMessage :=
  ⟨rfl, fun h => PolygonModeOutcome.noConfusion h⟩

/-- Claim C7 (amended): a missing polygon source file is reported with a
user-facing message and the operation aborted, with no output file written
and no exception; but a malformed (non-XML) polygon source file raises an
uncaught `ParseError` instead of being handled. -/
theorem polygon_source_error_handling (contains : List (List ℝ) → ℝ × ℝ → Bool)
    (draw : ℕ → ℝ × ℝ) (points_count : ℤ) (speed : ℝ) (k : ℕ) :
    mainPolygonBranch KmlSource.absent contains draw points_count speed k =
        PolygonModeOutcome.abortedWithMessage ∧
      mainPolygonBranch KmlSource.malformedXml contains draw points_count speed k =
        PolygonModeOutcome.uncaughtException :=
  ⟨rfl, rfl⟩

/-- Claim C10: on a well-formed KML file, `parse_polygon_from_kml` returns
the polygon built from the first Placemark that contains a Polygon, using
only the first two comma-separated components of each coordinate tuple;
every later polygon in the file is ignored. -/
theorem parse_first_polygon (pre rest : List (Option (List (List ℝ))))
    (coords : List (List ℝ)) (hpre : ∀ x ∈ pre, x = none) :
    parse_polygon_from_kml (KmlSource.wellFormed (pre ++ some coords :: rest)) =
      Except.ok (some (coords.map fun t => t.take 2)) := by
  induction pre with
  | nil => rfl
  | cons hd tl ih =>
    have hhd : hd = none := hpre hd (List.mem_cons_self hd tl)
    subst hhd
    have htl := ih fun x hx => hpre x (List.mem_cons_of_mem _ hx)
    simpa [parse_polygon_from_kml, placemarkLoop] using htl

/-- Witness for C10: one empty Placemark, then a polygon with a
three-component and a two-component tuple, then a later ignored polygon. -/
theorem parse_first_polygon_witness :
    parse_polygon_from_kml (KmlSource.wellFormed
        ([none] ++ some [[1, 2, 3], [4, 5]] :: [some [[9, 9]]])) =
      Except.ok (some (([[1, 2, 3], [4, 5]] : List (List ℝ)).map fun t => t.take 2)) :=
  parse_first_polygon [none] [some [[9, 9]]] [[1, 2, 3], [4, 5]]
    (fun x hx => by simpa using hx)
